import Mathlib

/-!
Verification of the reserve-it-please reservation application.

The definitions below are shallow embeddings of the TypeScript, PHP and
serverless source of the repository. Pure data transformations become Lean
functions. Operations that talk to the hosted backend take an explicit
environment describing the outcome of each backend call they make, and
return, next to their result value, the list of store operations they
issued, so that statements about "which writes and reads were performed"
can be made precise.
-/

namespace ReserveIt

/-- The four reservation states of the application
(interface Reservation in the api utility module). -/
inductive Status where
  | Pending
  | Confirmed
  | Canceled
  | NotResponding
deriving DecidableEq

/-- The application-level reservation shape (interface Reservation in the
api utility module): id, name, phone, date, timeSlot, status. -/
structure Reservation where
  id : String
  name : String
  phone : String
  date : String
  timeSlot : String
  status : Status
deriving DecidableEq

/-- The state update performed by handleNewReservation in
src/pages/Dashboard.tsx: if a reservation with the same id already exists
in the current in-memory list, the list is returned unchanged; otherwise
the new reservation is prepended. -/
def handleNewReservationList (r : Reservation) (prev : List Reservation) :
    List Reservation :=
  if prev.any (fun x => x.id == r.id) then prev
  else r :: prev

theorem handleNewReservationList_mem (r : Reservation) (l : List Reservation)
    (h : l.any (fun x => x.id == r.id) = true) :
    handleNewReservationList r l = l := by
  simp [handleNewReservationList, h]

theorem handleNewReservationList_not_mem (r : Reservation) (l : List Reservation)
    (h : l.any (fun x => x.id == r.id) = false) :
    handleNewReservationList r l = r :: l := by
  simp [handleNewReservationList, h]

/-- Claim C1: delivering the same insert event twice to the dashboard
reconciliation loop insert handler yields a list with no duplicate id; if
a reservation with that id is already present the handler is a no-op on
the list, otherwise the new reservation is prepended. -/
theorem c1_insert_handler_idempotent (r : Reservation) (l : List Reservation)
    (h : (l.map Reservation.id).Nodup) :
    ((handleNewReservationList r (handleNewReservationList r l)).map
        Reservation.id).Nodup ∧
    handleNewReservationList r (handleNewReservationList r l) =
      handleNewReservationList r l ∧
    ((∃ x ∈ l, x.id = r.id) → handleNewReservationList r l = l) ∧
    (¬ (∃ x ∈ l, x.id = r.id) → handleNewReservationList r l = r :: l) := by
  by_cases hmem : l.any (fun x => x.id == r.id) = true
  · have h1 : handleNewReservationList r l = l :=
      handleNewReservationList_mem r l hmem
    refine ⟨?_, ?_, ?_, ?_⟩
    · rw [h1, h1]; exact h
    · rw [h1]; exact h1
    · intro _; exact h1
    · intro hno
      exact absurd (by simpa using hmem) hno
  · have hfalse : l.any (fun x => x.id == r.id) = false := by
      simpa using hmem
    have h1 : handleNewReservationList r l = r :: l :=
      handleNewReservationList_not_mem r l hfalse
    have h2 : handleNewReservationList r (r :: l) = r :: l := by
      apply handleNewReservationList_mem
      simp
    have hnotin : r.id ∉ l.map Reservation.id := by
      intro hin
      rcases List.mem_map.mp hin with ⟨x, hx, hxid⟩
      have : ∃ x ∈ l, x.id = r.id := ⟨x, hx, hxid⟩
      simp only [List.any_eq_true, beq_iff_eq] at hmem
      exact hmem this
    refine ⟨?_, ?_, ?_, ?_⟩
    · rw [h1, h2]
      simp only [List.map_cons, List.nodup_cons]
      exact ⟨hnotin, h⟩
    · rw [h1, h2]
    · intro hyes
      exfalso
      simp only [List.any_eq_true, beq_iff_eq] at hmem
      exact hmem hyes
    · intro _; exact h1

/-- Concrete instantiation of the C1 theorem on an empty list and a sample
reservation. -/
theorem c1_insert_handler_idempotent_witness :
    ((handleNewReservationList
        ⟨"r1", "Alice", "612345678", "01/06/2025", "8h00-11h00", .Pending⟩
        (handleNewReservationList
          ⟨"r1", "Alice", "612345678", "01/06/2025", "8h00-11h00", .Pending⟩
          [])).map Reservation.id).Nodup :=
  (c1_insert_handler_idempotent
    ⟨"r1", "Alice", "612345678", "01/06/2025", "8h00-11h00", .Pending⟩
    [] (by decide)).1

/-- A partial update payload as accepted by updateReservation in the api
utility module (a partial Reservation, id passed separately): every field
optional; the status field carries the typed four-valued status, as in
the TypeScript signature. -/
structure UpdatePayload where
  name : Option String := none
  phone : Option String := none
  date : Option String := none
  timeSlot : Option String := none
  status : Option Status := none
deriving DecidableEq

/-- JavaScript truthiness of an optional string: absent, or present and
empty, is falsy. -/
def strTruthy : Option String → Bool
  | none => false
  | some s => s != ""

/-- The write payload updateReservation sends to the reservations table:
the spread of the updates, with timeSlot renamed to the time_slot column
when truthy (when timeSlot is present but falsy the spread keeps the raw
timeSlot key, modelled by the timeSlotRaw field), and manual_update set
to true exactly when a status field is included (all four status strings
are truthy). -/
structure SupabaseUpdates where
  name : Option String
  phone : Option String
  date : Option String
  time_slot : Option String
  timeSlotRaw : Option String
  status : Option Status
  manual_update : Bool
deriving DecidableEq

/-- Builds the store write payload from an update payload, mirroring the
field transformation at the top of updateReservation. -/
def toSupabaseUpdates (u : UpdatePayload) : SupabaseUpdates :=
  { name := u.name,
    phone := u.phone,
    date := u.date,
    time_slot := if strTruthy u.timeSlot then u.timeSlot else none,
    timeSlotRaw := if strTruthy u.timeSlot then none else u.timeSlot,
    status := u.status,
    manual_update := u.status.isSome }

/-- A store operation issued by the api utility module against the
reservations table. -/
inductive StoreOp where
  | writeRes (payload : SupabaseUpdates)
  | readRes
deriving DecidableEq

/-- Outcomes of the backend calls made by one run of updateReservation:
whether the session check passes (no session error and a session
present), the error returned by the first write if any, the verification
read result (an error, or the observed status of the re-read row), and
the error returned by the retry write if any. The retry error is only
ever logged by the source, so it cannot influence the function below. -/
structure UpdateEnv where
  sessionOk : Bool
  writeErr : Option String
  verify : Except String Status
  retryErr : Option String

/-- The error message fallback used throughout the api module: the
backend message, or a default when it is falsy. -/
def msgOr (e fallback : String) : String :=
  if e == "" then fallback else e

/-- Result shape of the api module operations. -/
structure ApiResult where
  success : Bool
  message : String
deriving DecidableEq

/-- updateReservation from the api utility module, as a function of the
update payload and of the backend outcomes, returning the result and the
ordered list of store operations issued. It mirrors the source: session
check first (early return with no store operation), then the single
update write; on write error an error result; otherwise a verification
read; when the read succeeds, a status field was requested and the
observed status differs from it, one retry write of the same payload
with manual_update forced to true; the overall result is success
regardless of the verification and retry outcomes. The enclosing
try/catch, which turns a thrown exception into success false with a
network-error message, is not modelled: the environment describes
returned errors only. -/
def updateReservation (u : UpdatePayload) (env : UpdateEnv) :
    ApiResult × List StoreOp :=
  if !env.sessionOk then
    ({ success := false, message := "Not authenticated" }, [])
  else
    let su := toSupabaseUpdates u
    match env.writeErr with
    | some e =>
        ({ success := false, message := msgOr e "Error updating reservation" },
          [.writeRes su])
    | none =>
        let retryOps : List StoreOp :=
          match env.verify with
          | .error _ => []
          | .ok observed =>
              match u.status with
              | some s =>
                  if observed ≠ s then
                    [.writeRes { su with manual_update := true }]
                  else []
              | none => []
        ({ success := true, message := "Reservation updated successfully" },
          .writeRes su :: .readRes :: retryOps)

/-- PHP emptiness of a string value: the empty string and the string 0
count as empty (each field of the legacy endpoint is guarded by isset
and not empty). -/
def phpEmpty (s : String) : Bool :=
  s == "" || s == "0"

/-- A field of the legacy endpoint request body is acted on when it is
present and not PHP-empty. -/
def fieldPresent (o : Option String) : Bool :=
  match o with
  | none => false
  | some s => !phpEmpty s

/-- The four valid status strings of the legacy endpoint. -/
def validStatuses : List String :=
  ["Pending", "Confirmed", "Canceled", "Not Responding"]

/-- The fixed time slot enumeration of the legacy endpoint. -/
def validTimeSlots : List String :=
  ["8h00-11h00", "11h00-14h00", "14h00-16h00"]

/-- The phone pattern of the legacy endpoint: exactly 9 or 10 ASCII
digits. -/
def phoneOk (s : String) : Bool :=
  (s.length == 9 || s.length == 10) && s.toList.all Char.isDigit

/-- The date pattern of the legacy endpoint: two digits, a slash, two
digits, a slash, four digits. -/
def dateOk (s : String) : Bool :=
  match s.toList with
  | [d1, d2, s1, m1, m2, s2, y1, y2, y3, y4] =>
      d1.isDigit && d2.isDigit && (s1 == '/') && m1.isDigit && m2.isDigit &&
        (s2 == '/') && y1.isDigit && y2.isDigit && y3.isDigit && y4.isDigit
  | _ => false

/-- The field set of a legacy endpoint update request body, after the id
has been validated. The sanitizeInput helper lives outside the sources
and is taken as the identity on the already-decoded strings. -/
structure PhpData where
  status : Option String := none
  name : Option String := none
  phone : Option String := none
  date : Option String := none
  timeSlot : Option String := none
deriving DecidableEq

/-- Outcome of the validation stage of the legacy endpoint: an HTTP
rejection, or the ordered list of column assignments of the single
UPDATE statement. -/
inductive PhpResp where
  | reject (code : Nat) (msg : String)
  | proceed (assigns : List (String × String))
deriving DecidableEq

/-- Whether a validation outcome is a rejection. -/
def PhpResp.isReject : PhpResp → Bool
  | .reject _ _ => true
  | .proceed _ => false

/-- Final stage of the legacy endpoint validation: an empty assignment
list is rejected, otherwise the accumulated assignments are executed. -/
def phpFinish (acc : List (String × String)) : PhpResp :=
  if acc.isEmpty then .reject 400 "No updates provided" else .proceed acc

/-- Time slot stage of the legacy endpoint validation. -/
def phpTimeSlotStep (d : PhpData) (acc : List (String × String)) : PhpResp :=
  match d.timeSlot with
  | some t =>
      if phpEmpty t then phpFinish acc
      else if t ∈ validTimeSlots then phpFinish (acc ++ [("time_slot", t)])
      else .reject 400 "Invalid time slot"
  | none => phpFinish acc

/-- Date stage of the legacy endpoint validation. -/
def phpDateStep (d : PhpData) (acc : List (String × String)) : PhpResp :=
  match d.date with
  | some s =>
      if phpEmpty s then phpTimeSlotStep d acc
      else if dateOk s then phpTimeSlotStep d (acc ++ [("date", s)])
      else .reject 400 "Invalid date format. Use DD/MM/YYYY"
  | none => phpTimeSlotStep d acc

/-- Phone stage of the legacy endpoint validation. -/
def phpPhoneStep (d : PhpData) (acc : List (String × String)) : PhpResp :=
  match d.phone with
  | some s =>
      if phpEmpty s then phpDateStep d acc
      else if phoneOk s then phpDateStep d (acc ++ [("phone", s)])
      else .reject 400 "Invalid phone number format"
  | none => phpDateStep d acc

/-- Name stage of the legacy endpoint validation; a present non-empty
name is never rejected. -/
def phpNameStep (d : PhpData) (acc : List (String × String)) : PhpResp :=
  match d.name with
  | some s =>
      if phpEmpty s then phpPhoneStep d acc
      else phpPhoneStep d (acc ++ [("name", s)])
  | none => phpPhoneStep d acc

/-- Status stage of the legacy endpoint validation: a present non-empty
status must be one of the four enumerated values, and its assignment is
accompanied by a manual_update assignment in the same statement. -/
def phpStatusStep (d : PhpData) : PhpResp :=
  match d.status with
  | some s =>
      if phpEmpty s then phpNameStep d []
      else if s ∈ validStatuses then
        phpNameStep d [("status", s), ("manual_update", "1")]
      else .reject 400 "Invalid status value"
  | none => phpNameStep d []

/-- The whole validation chain of the legacy endpoint, in source order:
status, name, phone, date, time slot, then the emptiness check. -/
def phpValidate (d : PhpData) : PhpResp :=
  phpStatusStep d

/-- Operations issued by the legacy endpoint against its relational
store. -/
inductive PhpOp where
  | update (assigns : List (String × String))
  | selectStatus
deriving DecidableEq

/-- Backend outcomes for one legacy endpoint run: the number of rows
matched by the UPDATE, and the status column returned by the
verification SELECT (none models a fetch that returned no row). -/
structure PhpEnv where
  rowCount : Nat
  verifyStatus : Option String

/-- Response shape of the legacy endpoint. -/
structure PhpResult where
  code : Nat
  success : Bool
  message : String
deriving DecidableEq

/-- The legacy PHP update endpoint: the validation chain, then the
single UPDATE statement; zero matched rows is a 404; otherwise a
verification SELECT of the status column and, when the request body had
a status key and the fetched status differs from it, one retry of the
same UPDATE statement; the response is 200 success in either case.
Database exceptions (the 500 branch) are not modelled. -/
def phpUpdateEndpoint (d : PhpData) (env : PhpEnv) :
    PhpResult × List PhpOp :=
  match phpValidate d with
  | .reject c m => ({ code := c, success := false, message := m }, [])
  | .proceed assigns =>
      if env.rowCount == 0 then
        ({ code := 404, success := false, message := "Reservation not found" },
          [.update assigns])
      else
        let retryOps : List PhpOp :=
          match env.verifyStatus, d.status with
          | some obs, some req => if obs ≠ req then [.update assigns] else []
          | _, _ => []
        ({ code := 200, success := true,
           message := "Reservation updated successfully" },
          .update assigns :: .selectStatus :: retryOps)

theorem phpFinish_proceed (acc assigns : List (String × String))
    (h : phpFinish acc = .proceed assigns) : assigns = acc := by
  unfold phpFinish at h
  split at h
  · simp at h
  · exact (PhpResp.proceed.inj h).symm

theorem phpTimeSlotStep_proceed (d : PhpData) (acc assigns : List (String × String))
    (h : phpTimeSlotStep d acc = .proceed assigns) :
    ∃ rest, assigns = acc ++ rest ∧ ∀ p ∈ rest, p.1 = "time_slot" := by
  unfold phpTimeSlotStep at h
  split at h
  · split at h
    · exact ⟨[], by simp [phpFinish_proceed _ _ h], by simp⟩
    · split at h
      · rename_i t _ _ _
        refine ⟨[("time_slot", t)], ?_, by simp⟩
        have := phpFinish_proceed _ _ h
        simpa using this
      · simp at h
  · exact ⟨[], by simp [phpFinish_proceed _ _ h], by simp⟩

theorem phpDateStep_proceed (d : PhpData) (acc assigns : List (String × String))
    (h : phpDateStep d acc = .proceed assigns) :
    ∃ rest, assigns = acc ++ rest ∧
      ∀ p ∈ rest, p.1 = "date" ∨ p.1 = "time_slot" := by
  unfold phpDateStep at h
  split at h
  · split at h
    · rcases phpTimeSlotStep_proceed d acc assigns h with ⟨rest, hr, hk⟩
      exact ⟨rest, hr, fun p hp => Or.inr (hk p hp)⟩
    · split at h
      · rename_i s _ _ _
        rcases phpTimeSlotStep_proceed d (acc ++ [("date", s)]) assigns h with
          ⟨rest, hr, hk⟩
        refine ⟨("date", s) :: rest, by simpa using hr, ?_⟩
        intro p hp
        rcases List.mem_cons.mp hp with hp | hp
        · exact Or.inl (by simp [hp])
        · exact Or.inr (hk p hp)
      · simp at h
  · rcases phpTimeSlotStep_proceed d acc assigns h with ⟨rest, hr, hk⟩
    exact ⟨rest, hr, fun p hp => Or.inr (hk p hp)⟩

theorem phpPhoneStep_proceed (d : PhpData) (acc assigns : List (String × String))
    (h : phpPhoneStep d acc = .proceed assigns) :
    ∃ rest, assigns = acc ++ rest ∧
      ∀ p ∈ rest, p.1 = "phone" ∨ p.1 = "date" ∨ p.1 = "time_slot" := by
  unfold phpPhoneStep at h
  split at h
  · split at h
    · rcases phpDateStep_proceed d acc assigns h with ⟨rest, hr, hk⟩
      exact ⟨rest, hr, fun p hp => Or.inr (hk p hp)⟩
    · split at h
      · rename_i s _ _ _
        rcases phpDateStep_proceed d (acc ++ [("phone", s)]) assigns h with
          ⟨rest, hr, hk⟩
        refine ⟨("phone", s) :: rest, by simpa using hr, ?_⟩
        intro p hp
        rcases List.mem_cons.mp hp with hp | hp
        · exact Or.inl (by simp [hp])
        · exact Or.inr (hk p hp)
      · simp at h
  · rcases phpDateStep_proceed d acc assigns h with ⟨rest, hr, hk⟩
    exact ⟨rest, hr, fun p hp => Or.inr (hk p hp)⟩

theorem phpNameStep_proceed (d : PhpData) (acc assigns : List (String × String))
    (h : phpNameStep d acc = .proceed assigns) :
    ∃ rest, assigns = acc ++ rest ∧
      ∀ p ∈ rest,
        p.1 = "name" ∨ p.1 = "phone" ∨ p.1 = "date" ∨ p.1 = "time_slot" := by
  unfold phpNameStep at h
  split at h
  · split at h
    · rcases phpPhoneStep_proceed d acc assigns h with ⟨rest, hr, hk⟩
      exact ⟨rest, hr, fun p hp => Or.inr (hk p hp)⟩
    · rename_i s _ _
      rcases phpPhoneStep_proceed d (acc ++ [("name", s)]) assigns h with
        ⟨rest, hr, hk⟩
      refine ⟨("name", s) :: rest, by simpa using hr, ?_⟩
      intro p hp
      rcases List.mem_cons.mp hp with hp | hp
      · exact Or.inl (by simp [hp])
      · exact Or.inr (hk p hp)
  · rcases phpPhoneStep_proceed d acc assigns h with ⟨rest, hr, hk⟩
    exact ⟨rest, hr, fun p hp => Or.inr (hk p hp)⟩

theorem phpFinish_reject400 (acc : List (String × String)) (c : Nat) (m : String)
    (h : phpFinish acc = .reject c m) : c = 400 := by
  unfold phpFinish at h
  split at h
  · exact (PhpResp.reject.inj h).1.symm
  · simp at h

theorem phpTimeSlotStep_reject400 (d : PhpData) (acc : List (String × String))
    (c : Nat) (m : String) (h : phpTimeSlotStep d acc = .reject c m) :
    c = 400 := by
  unfold phpTimeSlotStep at h
  split at h
  · split at h
    · exact phpFinish_reject400 _ _ _ h
    · split at h
      · exact phpFinish_reject400 _ _ _ h
      · exact (PhpResp.reject.inj h).1.symm
  · exact phpFinish_reject400 _ _ _ h

theorem phpDateStep_reject400 (d : PhpData) (acc : List (String × String))
    (c : Nat) (m : String) (h : phpDateStep d acc = .reject c m) : c = 400 := by
  unfold phpDateStep at h
  split at h
  · split at h
    · exact phpTimeSlotStep_reject400 _ _ _ _ h
    · split at h
      · exact phpTimeSlotStep_reject400 _ _ _ _ h
      · exact (PhpResp.reject.inj h).1.symm
  · exact phpTimeSlotStep_reject400 _ _ _ _ h

theorem phpPhoneStep_reject400 (d : PhpData) (acc : List (String × String))
    (c : Nat) (m : String) (h : phpPhoneStep d acc = .reject c m) : c = 400 := by
  unfold phpPhoneStep at h
  split at h
  · split at h
    · exact phpDateStep_reject400 _ _ _ _ h
    · split at h
      · exact phpDateStep_reject400 _ _ _ _ h
      · exact (PhpResp.reject.inj h).1.symm
  · exact phpDateStep_reject400 _ _ _ _ h

theorem phpNameStep_reject400 (d : PhpData) (acc : List (String × String))
    (c : Nat) (m : String) (h : phpNameStep d acc = .reject c m) : c = 400 := by
  unfold phpNameStep at h
  split at h
  · split at h
    · exact phpPhoneStep_reject400 _ _ _ _ h
    · exact phpPhoneStep_reject400 _ _ _ _ h
  · exact phpPhoneStep_reject400 _ _ _ _ h

theorem phpValidate_reject400 (d : PhpData) (c : Nat) (m : String)
    (h : phpValidate d = .reject c m) : c = 400 := by
  unfold phpValidate phpStatusStep at h
  split at h
  · split at h
    · exact phpNameStep_reject400 _ _ _ _ h
    · split at h
      · exact phpNameStep_reject400 _ _ _ _ h
      · exact (PhpResp.reject.inj h).1.symm
  · exact phpNameStep_reject400 _ _ _ _ h

theorem phpTimeSlotStep_isReject_of_bad (d : PhpData) (t : String)
    (hp : d.timeSlot = some t) (he : phpEmpty t = false)
    (hv : t ∉ validTimeSlots) :
    ∀ acc, (phpTimeSlotStep d acc).isReject = true := by
  intro acc
  simp [phpTimeSlotStep, hp, he, hv, PhpResp.isReject]

theorem phpDateStep_isReject_of_bad (d : PhpData) (s : String)
    (hp : d.date = some s) (he : phpEmpty s = false) (hok : dateOk s = false) :
    ∀ acc, (phpDateStep d acc).isReject = true := by
  intro acc
  simp [phpDateStep, hp, he, hok, PhpResp.isReject]

theorem phpPhoneStep_isReject_of_bad (d : PhpData) (s : String)
    (hp : d.phone = some s) (he : phpEmpty s = false) (hok : phoneOk s = false) :
    ∀ acc, (phpPhoneStep d acc).isReject = true := by
  intro acc
  simp [phpPhoneStep, hp, he, hok, PhpResp.isReject]

theorem phpDateStep_isReject_lift (d : PhpData)
    (h : ∀ acc, (phpTimeSlotStep d acc).isReject = true) :
    ∀ acc, (phpDateStep d acc).isReject = true := by
  intro acc
  unfold phpDateStep
  split
  · split
    · exact h acc
    · split
      · exact h _
      · rfl
  · exact h acc

theorem phpPhoneStep_isReject_lift (d : PhpData)
    (h : ∀ acc, (phpDateStep d acc).isReject = true) :
    ∀ acc, (phpPhoneStep d acc).isReject = true := by
  intro acc
  unfold phpPhoneStep
  split
  · split
    · exact h acc
    · split
      · exact h _
      · rfl
  · exact h acc

theorem phpNameStep_isReject_lift (d : PhpData)
    (h : ∀ acc, (phpPhoneStep d acc).isReject = true) :
    ∀ acc, (phpNameStep d acc).isReject = true := by
  intro acc
  unfold phpNameStep
  split
  · split
    · exact h acc
    · exact h _
  · exact h acc

theorem phpValidate_isReject_lift (d : PhpData)
    (h : ∀ acc, (phpNameStep d acc).isReject = true) :
    (phpValidate d).isReject = true := by
  unfold phpValidate phpStatusStep
  split
  · split
    · exact h _
    · split
      · exact h _
      · rfl
  · exact h _

theorem phpValidate_isReject_of_bad_status (d : PhpData) (s : String)
    (hp : d.status = some s) (he : phpEmpty s = false)
    (hv : s ∉ validStatuses) : (phpValidate d).isReject = true := by
  simp [phpValidate, phpStatusStep, hp, he, hv, PhpResp.isReject]

theorem phpUpdateEndpoint_of_reject (d : PhpData) (env : PhpEnv)
    (h : (phpValidate d).isReject = true) :
    (phpUpdateEndpoint d env).fst.code = 400 ∧
    (phpUpdateEndpoint d env).fst.success = false ∧
    (phpUpdateEndpoint d env).snd = [] := by
  unfold phpUpdateEndpoint
  cases hv : phpValidate d with
  | reject c m =>
      have hc := phpValidate_reject400 d c m hv
      subst hc
      exact ⟨rfl, rfl, rfl⟩
  | proceed a =>
      rw [hv] at h
      simp [PhpResp.isReject] at h

/-- Claim C2: an update call that includes a status field sets the
manual-update marker in the same write as the status change, and an
update call without a status field does not set the marker. In the
primary client path the single write payload carries the requested
status together with manual_update true exactly when a status is
included; in the legacy endpoint the column list of the single UPDATE
statement contains the status assignment together with manual_update = 1
when a non-empty status is supplied, and contains no manual_update
assignment when no status field is acted on. -/
theorem c2_status_update_sets_marker (u : UpdatePayload) (d : PhpData) :
    ((toSupabaseUpdates u).status = u.status ∧
      (toSupabaseUpdates u).manual_update = u.status.isSome) ∧
    (∀ assigns s, phpValidate d = .proceed assigns → d.status = some s →
        phpEmpty s = false →
        ("status", s) ∈ assigns ∧ ("manual_update", "1") ∈ assigns) ∧
    (∀ assigns, phpValidate d = .proceed assigns →
        fieldPresent d.status = false →
        ∀ v, ("manual_update", v) ∉ assigns) := by
  refine ⟨⟨rfl, rfl⟩, ?_, ?_⟩
  · intro assigns s hpr hs he
    unfold phpValidate phpStatusStep at hpr
    simp only [hs, he] at hpr
    by_cases hv : s ∈ validStatuses
    · rw [if_pos hv] at hpr
      rcases phpNameStep_proceed _ _ _ hpr with ⟨rest, hr, _⟩
      subst hr
      constructor
      · exact List.mem_append_left _ (by simp)
      · exact List.mem_append_left _ (by simp)
    · rw [if_neg hv] at hpr
      simp at hpr
  · intro assigns hpr hnp v hmem
    unfold phpValidate phpStatusStep at hpr
    cases hs : d.status with
    | none =>
        simp only [hs] at hpr
        rcases phpNameStep_proceed _ _ _ hpr with ⟨rest, hr, hk⟩
        subst hr
        have := hk _ hmem
        simp at this
    | some s =>
        have he : phpEmpty s = true := by
          unfold fieldPresent at hnp
          rw [hs] at hnp
          simpa using hnp
        simp only [hs, he, if_pos] at hpr
        rcases phpNameStep_proceed _ _ _ hpr with ⟨rest, hr, hk⟩
        subst hr
        have := hk _ hmem
        simp at this

/-- Concrete instantiation of the C2 theorem: a status-only update in
both paths. -/
theorem c2_status_update_sets_marker_witness :
    (toSupabaseUpdates { status := some .Confirmed }).manual_update =
        (some Status.Confirmed).isSome ∧
    ("status", "Confirmed") ∈ [("status", "Confirmed"), ("manual_update", "1")] ∧
    ("manual_update", "1") ∈ [("status", "Confirmed"), ("manual_update", "1")] := by
  have h := c2_status_update_sets_marker { status := some .Confirmed }
    { status := some "Confirmed" }
  refine ⟨h.1.2, ?_, ?_⟩
  · exact (h.2.1 [("status", "Confirmed"), ("manual_update", "1")] "Confirmed"
      (by decide) rfl (by decide)).1
  · exact (h.2.1 [("status", "Confirmed"), ("manual_update", "1")] "Confirmed"
      (by decide) rfl (by decide)).2

/-- Claim C3: for an update call that includes a status field, with a
valid session and a successful first write, the operation performs the
verification read; a successful read observing a status different from
the requested one triggers exactly one retry, which is the same write;
a read observing the requested status, or a failed read, triggers no
retry; and the result is success regardless of the verification and
retry outcomes (the retry error field of the environment is
unconstrained). -/
theorem c3_update_verify_retry (u : UpdatePayload) (env : UpdateEnv)
    (s : Status) (hs : u.status = some s) (hsession : env.sessionOk = true)
    (hw : env.writeErr = none) :
    (updateReservation u env).fst =
      { success := true, message := "Reservation updated successfully" } ∧
    (∀ obs, env.verify = .ok obs → obs ≠ s →
        (updateReservation u env).snd =
          [.writeRes (toSupabaseUpdates u), .readRes,
            .writeRes (toSupabaseUpdates u)]) ∧
    (∀ obs, env.verify = .ok obs → obs = s →
        (updateReservation u env).snd =
          [.writeRes (toSupabaseUpdates u), .readRes]) ∧
    (∀ e, env.verify = .error e →
        (updateReservation u env).snd =
          [.writeRes (toSupabaseUpdates u), .readRes]) := by
  have hmu : { toSupabaseUpdates u with manual_update := true } =
      toSupabaseUpdates u := by
    simp [toSupabaseUpdates, hs]
  refine ⟨?_, ?_, ?_, ?_⟩
  · simp [updateReservation, hsession, hw]
  · intro obs hv hne
    simp [updateReservation, hsession, hw, hv, hs, hne, hmu]
  · intro obs hv heq
    subst heq
    simp [updateReservation, hsession, hw, hv, hs]
  · intro e hv
    simp [updateReservation, hsession, hw, hv]

/-- Concrete instantiation of the C3 theorem: a Confirmed status update
whose verification read observes a stale Pending status, and one whose
read observes the requested status. -/
theorem c3_update_verify_retry_witness :
    (updateReservation { status := some .Confirmed }
        { sessionOk := true, writeErr := none, verify := .ok .Pending,
          retryErr := some "retry failed" }).fst =
      { success := true, message := "Reservation updated successfully" } ∧
    (updateReservation { status := some .Confirmed }
        { sessionOk := true, writeErr := none, verify := .ok .Pending,
          retryErr := some "retry failed" }).snd =
      [.writeRes (toSupabaseUpdates { status := some .Confirmed }), .readRes,
        .writeRes (toSupabaseUpdates { status := some .Confirmed })] ∧
    (updateReservation { status := some .Confirmed }
        { sessionOk := true, writeErr := none, verify := .ok .Confirmed,
          retryErr := none }).snd =
      [.writeRes (toSupabaseUpdates { status := some .Confirmed }), .readRes] := by
  have h1 := c3_update_verify_retry { status := some .Confirmed }
    { sessionOk := true, writeErr := none, verify := .ok .Pending,
      retryErr := some "retry failed" } .Confirmed rfl rfl rfl
  have h2 := c3_update_verify_retry { status := some .Confirmed }
    { sessionOk := true, writeErr := none, verify := .ok .Confirmed,
      retryErr := none } .Confirmed rfl rfl rfl
  exact ⟨h1.1, h1.2.1 .Pending rfl (by decide), h2.2.2.1 .Confirmed rfl rfl⟩

/-- Counterexample to claim C8 as stated: the primary client path does
not validate fields. The phone string abc is non-empty and matches no
9-10 digit pattern, yet with a valid session and no backend error
updateReservation issues the store write carrying that phone and
reports success, where the claim requires a soft failure and no row
written. -/
theorem c8_counterexample :
    phoneOk "abc" = false ∧
    updateReservation { phone := some "abc" }
        { sessionOk := true, writeErr := none, verify := .error "x",
          retryErr := none } =
      ({ success := true, message := "Reservation updated successfully" },
        [.writeRes (toSupabaseUpdates { phone := some "abc" }), .readRes]) ∧
    (toSupabaseUpdates { phone := some "abc" }).phone = some "abc" := by
  refine ⟨by decide, rfl, rfl⟩

/-- Claim C8 amended: in the legacy HTTP endpoint a non-empty status
outside the four enumerated values, a non-empty phone not matching
exactly 9-10 digits, a non-empty date not matching the DD/MM/YYYY shape,
and a non-empty time slot outside the fixed enumerated set are each
rejected with a 400 response and no row is written; the primary client
path performs no such field validation: with a valid session it always
issues the update write whatever the field contents, and reports success
whenever the write is not refused by the store. -/
theorem c8_amended_validation (d : PhpData) (env : PhpEnv)
    (u : UpdatePayload) (uenv : UpdateEnv) :
    (∀ s, d.status = some s → phpEmpty s = false → s ∉ validStatuses →
        (phpUpdateEndpoint d env).fst.code = 400 ∧
        (phpUpdateEndpoint d env).fst.success = false ∧
        (phpUpdateEndpoint d env).snd = []) ∧
    (∀ s, d.phone = some s → phpEmpty s = false → phoneOk s = false →
        (phpUpdateEndpoint d env).fst.code = 400 ∧
        (phpUpdateEndpoint d env).fst.success = false ∧
        (phpUpdateEndpoint d env).snd = []) ∧
    (∀ s, d.date = some s → phpEmpty s = false → dateOk s = false →
        (phpUpdateEndpoint d env).fst.code = 400 ∧
        (phpUpdateEndpoint d env).fst.success = false ∧
        (phpUpdateEndpoint d env).snd = []) ∧
    (∀ t, d.timeSlot = some t → phpEmpty t = false → t ∉ validTimeSlots →
        (phpUpdateEndpoint d env).fst.code = 400 ∧
        (phpUpdateEndpoint d env).fst.success = false ∧
        (phpUpdateEndpoint d env).snd = []) ∧
    (uenv.sessionOk = true →
        (updateReservation u uenv).snd.head? =
          some (.writeRes (toSupabaseUpdates u)) ∧
        (uenv.writeErr = none →
          (updateReservation u uenv).fst.success = true)) := by
  refine ⟨?_, ?_, ?_, ?_, ?_⟩
  · intro s hp he hv
    exact phpUpdateEndpoint_of_reject d env
      (phpValidate_isReject_of_bad_status d s hp he hv)
  · intro s hp he hok
    exact phpUpdateEndpoint_of_reject d env
      (phpValidate_isReject_lift d (phpNameStep_isReject_lift d
        (phpPhoneStep_isReject_of_bad d s hp he hok)))
  · intro s hp he hok
    exact phpUpdateEndpoint_of_reject d env
      (phpValidate_isReject_lift d (phpNameStep_isReject_lift d
        (phpPhoneStep_isReject_lift d
          (phpDateStep_isReject_of_bad d s hp he hok))))
  · intro t hp he hv
    exact phpUpdateEndpoint_of_reject d env
      (phpValidate_isReject_lift d (phpNameStep_isReject_lift d
        (phpPhoneStep_isReject_lift d (phpDateStep_isReject_lift d
          (phpTimeSlotStep_isReject_of_bad d t hp he hv)))))
  · intro hsession
    constructor
    · cases hw : uenv.writeErr with
      | some e => simp [updateReservation, hsession, hw]
      | none =>
          cases hv : uenv.verify with
          | error e => simp [updateReservation, hsession, hw, hv]
          | ok obs =>
              cases hst : u.status with
              | none => simp [updateReservation, hsession, hw, hv, hst]
              | some s =>
                  by_cases hne : obs = s
                  · simp [updateReservation, hsession, hw, hv, hst, hne]
                  · simp [updateReservation, hsession, hw, hv, hst, hne]
    · intro hw
      cases hv : uenv.verify with
      | error e => simp [updateReservation, hsession, hw, hv]
      | ok obs => simp [updateReservation, hsession, hw, hv]

/-- Concrete instantiation of the C8 amended theorem: each invalid field
rejected by the legacy endpoint at a concrete request, and the primary
path issuing the write for the same invalid phone. -/
theorem c8_amended_validation_witness :
    (phpUpdateEndpoint { phone := some "abc" }
        { rowCount := 1, verifyStatus := none }).fst.code = 400 ∧
    (phpUpdateEndpoint { phone := some "abc" }
        { rowCount := 1, verifyStatus := none }).snd = [] ∧
    (phpUpdateEndpoint { date := some "2025-06-01" }
        { rowCount := 1, verifyStatus := none }).fst.code = 400 ∧
    (phpUpdateEndpoint { status := some "Done" }
        { rowCount := 1, verifyStatus := none }).fst.code = 400 ∧
    (phpUpdateEndpoint { timeSlot := some "20h00-23h00" }
        { rowCount := 1, verifyStatus := none }).fst.code = 400 ∧
    (updateReservation { phone := some "abc" }
        { sessionOk := true, writeErr := none, verify := .error "x",
          retryErr := none }).snd.head? =
      some (.writeRes (toSupabaseUpdates { phone := some "abc" })) := by
  have h1 := c8_amended_validation { phone := some "abc" }
    { rowCount := 1, verifyStatus := none } { phone := some "abc" }
    { sessionOk := true, writeErr := none, verify := .error "x",
      retryErr := none }
  have h2 := c8_amended_validation { date := some "2025-06-01" }
    { rowCount := 1, verifyStatus := none } {}
    { sessionOk := true, writeErr := none, verify := .error "x",
      retryErr := none }
  have h3 := c8_amended_validation { status := some "Done" }
    { rowCount := 1, verifyStatus := none } {}
    { sessionOk := true, writeErr := none, verify := .error "x",
      retryErr := none }
  have h4 := c8_amended_validation { timeSlot := some "20h00-23h00" }
    { rowCount := 1, verifyStatus := none } {}
    { sessionOk := true, writeErr := none, verify := .error "x",
      retryErr := none }
  have hp1 := h1.2.1 "abc" rfl (by decide) (by decide)
  refine ⟨hp1.1, hp1.2.2, ?_, ?_, ?_, ?_⟩
  · exact (h2.2.2.1 "2025-06-01" rfl (by decide) (by decide)).1
  · exact (h3.1 "Done" rfl (by decide) (by decide)).1
  · exact (h4.2.2.2.1 "20h00-23h00" rfl (by decide) (by decide)).1
  · exact (h1.2.2.2.2 rfl).1

/-- A stored reservations row as returned by the hosted database, in
wire field names: the time_slot column and the store-assigned creation
timestamp. -/
structure Row where
  id : String
  name : String
  phone : String
  date : String
  time_slot : String
  status : Status
  created_at : Nat
deriving DecidableEq

/-- The descending creation-time ordering requested by the list query
(order by created_at with ascending false): a row may come before
another when its creation timestamp is at least the other one. -/
def rowLater (a b : Row) : Prop :=
  b.created_at ≤ a.created_at

instance : DecidableRel rowLater :=
  fun _ _ => Nat.decLe _ _

instance : IsTotal Row rowLater :=
  ⟨fun a b => Nat.le_total b.created_at a.created_at⟩

instance : IsTrans Row rowLater :=
  ⟨fun _ _ _ hab hbc => Nat.le_trans hbc hab⟩

/-- The semantics of the ordered list query issued by fetchReservations:
the reservations table sorted by created_at descending (this is the
public contract of the order modifier of the hosted store). -/
def orderByCreatedDesc (table : List Row) : List Row :=
  List.insertionSort rowLater table

/-- The mapping applied to every fetched row by fetchReservations: wire
format to application shape; the creation timestamp is not kept. -/
def rowToReservation (r : Row) : Reservation :=
  { id := r.id, name := r.name, phone := r.phone, date := r.date,
    timeSlot := r.time_slot, status := r.status }

/-- Result shape of fetchReservations. -/
structure FetchResult where
  success : Bool
  data : Option (List Reservation)
  message : Option String
deriving DecidableEq

/-- Backend outcomes for one fetchReservations run: the session check,
and the error returned by the select if any. -/
structure FetchEnv where
  sessionOk : Bool
  fetchErr : Option String

/-- fetchReservations from the api utility module: session check first
(early return with no store operation), then one ordered select over
the reservations table; on success the rows are mapped into the
application shape in query order. -/
def fetchReservations (env : FetchEnv) (table : List Row) :
    FetchResult × List StoreOp :=
  if !env.sessionOk then
    ({ success := false, data := none,
       message := some "Not authenticated" }, [])
  else
    match env.fetchErr with
    | some e =>
        ({ success := false, data := none,
           message := some (msgOr e "Error fetching reservations") },
          [.readRes])
    | none =>
        ({ success := true,
           data := some ((orderByCreatedDesc table).map rowToReservation),
           message := none }, [.readRes])

/-- The payload of a createReservation call. The status field models a
caller that passes an extra status property at run time (the typed
signature omits both id and status); the insert body never reads it. -/
structure CreateData where
  name : String
  phone : String
  date : String
  timeSlot : String
  status : Option Status := none
deriving DecidableEq

/-- The row insert payload built by createReservation: the four caller
fields with timeSlot renamed to the time_slot column, and status forced
to Pending. -/
structure InsertRow where
  name : String
  phone : String
  date : String
  time_slot : String
  status : Status
deriving DecidableEq

/-- Builds the insert payload of createReservation. -/
def createInsertRow (c : CreateData) : InsertRow :=
  { name := c.name, phone := c.phone, date := c.date,
    time_slot := c.timeSlot, status := .Pending }

/-- Backend outcomes of one createReservation run: the ambient session
state (never consulted by the source), and the insert result, an error
or the id of the inserted row as echoed back by the attached select
(none when the returned row set is empty). -/
structure CreateEnv where
  sessionOk : Bool
  insertRes : Except String (Option String)

/-- Result shape of createReservation. -/
structure CreateResult where
  success : Bool
  message : String
  id : Option String
deriving DecidableEq

/-- The store operation issued by createReservation. -/
inductive CreateOp where
  | insertRow (payload : InsertRow)
deriving DecidableEq

/-- Whether an insert outcome is an error. -/
def insertErrored (r : Except String (Option String)) : Bool :=
  match r with
  | .error _ => true
  | .ok _ => false

/-- createReservation from the api utility module: no validation and no
session check; one insert with status forced to Pending and timeSlot
mapped to the time_slot column; a store error becomes success false,
otherwise success true with the returned id. -/
def createReservation (c : CreateData) (env : CreateEnv) :
    CreateResult × List CreateOp :=
  match env.insertRes with
  | .error e =>
      ({ success := false, message := msgOr e "Error creating reservation",
         id := none }, [.insertRow (createInsertRow c)])
  | .ok oid =>
      ({ success := true, message := "Reservation created successfully",
         id := oid }, [.insertRow (createInsertRow c)])

/-- Claim C6: for every creation payload the inserted row has status
exactly Pending even if the caller supplied a status, the application
timeSlot field is written to the time_slot column, and the operation
rejects no payload: the insert is issued for every payload and the
result is success exactly when the store accepts the insert. -/
theorem c6_create_forces_pending (c : CreateData) (env : CreateEnv) :
    (createInsertRow c).status = .Pending ∧
    (createInsertRow c).time_slot = c.timeSlot ∧
    (createReservation c env).snd = [.insertRow (createInsertRow c)] ∧
    (createReservation c env).fst.success = !insertErrored env.insertRes ∧
    (∀ s, createInsertRow { c with status := s } = createInsertRow c) := by
  refine ⟨rfl, rfl, ?_, ?_, fun s => rfl⟩
  · cases h : env.insertRes <;> simp [createReservation, h]
  · cases h : env.insertRes <;> simp [createReservation, insertErrored, h]

/-- Concrete instantiation of the C6 theorem: a booking form payload
that even carries a caller-supplied status is stored as Pending. -/
theorem c6_create_forces_pending_witness :
    (createInsertRow
      ⟨"Alice", "612345678", "01/06/2025", "8h00-11h00",
        some .Confirmed⟩).status = .Pending ∧
    (createInsertRow
      ⟨"Alice", "612345678", "01/06/2025", "8h00-11h00",
        some .Confirmed⟩).time_slot = "8h00-11h00" ∧
    (createReservation
        ⟨"Alice", "612345678", "01/06/2025", "8h00-11h00", some .Confirmed⟩
        ⟨true, .ok (some "r1")⟩).fst.success =
      !insertErrored (.ok (some "r1")) :=
  ⟨(c6_create_forces_pending
      ⟨"Alice", "612345678", "01/06/2025", "8h00-11h00", some .Confirmed⟩
      ⟨true, .ok (some "r1")⟩).1,
    (c6_create_forces_pending
      ⟨"Alice", "612345678", "01/06/2025", "8h00-11h00", some .Confirmed⟩
      ⟨true, .ok (some "r1")⟩).2.1,
    (c6_create_forces_pending
      ⟨"Alice", "612345678", "01/06/2025", "8h00-11h00", some .Confirmed⟩
      ⟨true, .ok (some "r1")⟩).2.2.2.1⟩

/-- Claim C9 (implicit): the data of a successful list call is exactly
the image of the reservations table sorted by created_at descending,
and that sorted table is pairwise descending on created_at and a
permutation of the table. -/
theorem c9_list_ordered_desc (env : FetchEnv) (table : List Row)
    (hs : env.sessionOk = true) (he : env.fetchErr = none) :
    (fetchReservations env table).fst.data =
      some ((orderByCreatedDesc table).map rowToReservation) ∧
    (orderByCreatedDesc table).Pairwise rowLater ∧
    (orderByCreatedDesc table).Perm table := by
  refine ⟨by simp [fetchReservations, hs, he], ?_, ?_⟩
  · exact List.sorted_insertionSort rowLater table
  · exact List.perm_insertionSort rowLater table

/-- Concrete instantiation of the C9 theorem on a two-row table stored
in ascending creation order. -/
theorem c9_list_ordered_desc_witness :
    (fetchReservations { sessionOk := true, fetchErr := none }
        [⟨"a", "A", "611111111", "01/01/2025", "8h00-11h00", .Pending, 5⟩,
          ⟨"b", "B", "622222222", "02/01/2025", "11h00-14h00", .Pending, 9⟩]
      ).fst.data =
      some ((orderByCreatedDesc
        [⟨"a", "A", "611111111", "01/01/2025", "8h00-11h00", .Pending, 5⟩,
          ⟨"b", "B", "622222222", "02/01/2025", "11h00-14h00", .Pending, 9⟩]
        ).map rowToReservation) ∧
    (orderByCreatedDesc
        [⟨"a", "A", "611111111", "01/01/2025", "8h00-11h00", .Pending, 5⟩,
          ⟨"b", "B", "622222222", "02/01/2025", "11h00-14h00", .Pending, 9⟩]
      ).Pairwise rowLater ∧
    (orderByCreatedDesc
        [⟨"a", "A", "611111111", "01/01/2025", "8h00-11h00", .Pending, 5⟩,
          ⟨"b", "B", "622222222", "02/01/2025", "11h00-14h00", .Pending, 9⟩]
      ).Perm
      [⟨"a", "A", "611111111", "01/01/2025", "8h00-11h00", .Pending, 5⟩,
        ⟨"b", "B", "622222222", "02/01/2025", "11h00-14h00", .Pending, 9⟩] :=
  c9_list_ordered_desc _ _ rfl rfl

/-- Claim C10 (implicit): with no active session or a failed session
check, list and update return success false with the message Not
authenticated and issue no store operation, and create performs no
session check: it issues its insert whatever the ambient session state,
with a result independent of that state. -/
theorem c10_session_gating (u : UpdatePayload) (uenv : UpdateEnv)
    (fenv : FetchEnv) (table : List Row) (c : CreateData) (cenv : CreateEnv)
    (hu : uenv.sessionOk = false) (hf : fenv.sessionOk = false) :
    updateReservation u uenv =
      ({ success := false, message := "Not authenticated" }, []) ∧
    fetchReservations fenv table =
      ({ success := false, data := none,
         message := some "Not authenticated" }, []) ∧
    (createReservation c cenv).snd = [.insertRow (createInsertRow c)] ∧
    createReservation c cenv =
      createReservation c { cenv with sessionOk := true } := by
  refine ⟨?_, ?_, ?_, ?_⟩
  · simp [updateReservation, hu]
  · simp [fetchReservations, hf]
  · cases h : cenv.insertRes <;> simp [createReservation, h]
  · cases h : cenv.insertRes <;> simp [createReservation, h]

/-- Concrete instantiation of the C10 theorem with a signed-out
environment. -/
theorem c10_session_gating_witness :
    updateReservation { status := some .Confirmed }
        { sessionOk := false, writeErr := none, verify := .error "x",
          retryErr := none } =
      ({ success := false, message := "Not authenticated" }, []) ∧
    fetchReservations { sessionOk := false, fetchErr := none } [] =
      ({ success := false, data := none,
         message := some "Not authenticated" }, []) ∧
    (createReservation
        { name := "Alice", phone := "612345678", date := "01/06/2025",
          timeSlot := "8h00-11h00" }
        { sessionOk := false, insertRes := .ok (some "r1") }).snd =
      [.insertRow (createInsertRow
        { name := "Alice", phone := "612345678", date := "01/06/2025",
          timeSlot := "8h00-11h00" })] := by
  have h := c10_session_gating { status := some .Confirmed }
    { sessionOk := false, writeErr := none, verify := .error "x",
      retryErr := none }
    { sessionOk := false, fetchErr := none } []
    { name := "Alice", phone := "612345678", date := "01/06/2025",
      timeSlot := "8h00-11h00" }
    { sessionOk := false, insertRes := .ok (some "r1") } rfl rfl
  exact ⟨h.1, h.2.1, h.2.2.1⟩

/-- The local fast-path authentication flags and their expiry
companions, as storage keys: one pair persistent across browser
restarts, one per-tab. -/
structure AuthStorage where
  isAuthLocal : Bool
  isAuthSession : Bool
  expiryLocal : Bool
  expirySession : Bool
deriving DecidableEq

/-- Outcome of the backend sign-out call: success, a returned error, or
a thrown exception. -/
inductive SignOutOutcome where
  | ok
  | errored (msg : String)
  | thrown (msg : String)
deriving DecidableEq

/-- Result shape of logoutAdmin. -/
structure LogoutResult where
  success : Bool
  message : Option String
deriving DecidableEq

/-- logoutAdmin from the api utility module: on sign-out success it
removes both isAuthenticated flags and both authExpiry keys; on a
returned error, or on a thrown exception reaching the catch, it returns
early with success false and leaves the storage untouched. -/
def logoutAdmin (o : SignOutOutcome) (st : AuthStorage) :
    LogoutResult × AuthStorage :=
  match o with
  | .ok =>
      ({ success := true, message := none },
        { isAuthLocal := false, isAuthSession := false,
          expiryLocal := false, expirySession := false })
  | .errored m => ({ success := false, message := some m }, st)
  | .thrown _ =>
      ({ success := false,
         message := some "Network error. Please try again." }, st)

/-- Modelled from the spec: clearAuthState, from the authUtils module
whose source is not in the repository snapshot, clears both local
fast-path authentication flags (the persistent one and the per-tab
one). -/
def clearAuthState (_ : AuthStorage) : AuthStorage :=
  { isAuthLocal := false, isAuthSession := false,
    expiryLocal := false, expirySession := false }

/-- handleLogout from Dashboard.tsx: awaits logoutAdmin and calls
clearAuthState unconditionally — right after the await on the normal
path, whatever the returned result, and in the catch branch as well, so
the catch path yields the same storage. The channel teardown, toasts
and navigation carry no authentication state. -/
def handleLogout (o : SignOutOutcome) (st : AuthStorage) :
    LogoutResult × AuthStorage :=
  let r := logoutAdmin o st
  (r.fst, clearAuthState r.snd)

/-- Claim C4: every execution of the logout operation clears both local
fast-path authentication flags, whatever the backend sign-out outcome —
success, returned error, or thrown exception. -/
theorem c4_logout_clears_flags (o : SignOutOutcome) (st : AuthStorage) :
    (handleLogout o st).snd.isAuthLocal = false ∧
    (handleLogout o st).snd.isAuthSession = false := by
  cases o <;> exact ⟨rfl, rfl⟩

/-- Concrete instantiation of the C4 theorem: a failed backend sign-out
still clears both flags. -/
theorem c4_logout_clears_flags_witness :
    (handleLogout (.errored "server error") ⟨true, true, true, true⟩
      ).snd.isAuthLocal = false ∧
    (handleLogout (.errored "server error") ⟨true, true, true, true⟩
      ).snd.isAuthSession = false :=
  c4_logout_clears_flags (.errored "server error") ⟨true, true, true, true⟩

/-- A JavaScript runtime value, as far as the realtime payload decoding
observes it: undefined, null, booleans, numbers, strings, and objects
as association lists of properties. -/
inductive Raw where
  | undefv
  | nullv
  | boolv (b : Bool)
  | numv (n : Int)
  | strv (s : String)
  | objv (fields : List (String × Raw))

/-- JavaScript truthiness. -/
def Raw.truthy : Raw → Bool
  | .undefv => false
  | .nullv => false
  | .boolv b => b
  | .numv n => n != 0
  | .strv s => s != ""
  | .objv _ => true

/-- Whether typeof yields the string object: true for null and for
objects. -/
def Raw.isObjectType : Raw → Bool
  | .nullv => true
  | .objv _ => true
  | _ => false

/-- JavaScript strict equality on decoded payload values: value
equality on primitives; two (freshly decoded, hence reference-distinct)
objects are never strictly equal. -/
def jsStrictEq : Raw → Raw → Bool
  | .undefv, .undefv => true
  | .nullv, .nullv => true
  | .boolv a, .boolv b => a == b
  | .numv a, .numv b => a == b
  | .strv a, .strv b => a == b
  | _, _ => false

/-- Property access on an object: the value of the first binding of the
key, or undefined when the property is missing. In JavaScript this
never throws. -/
def getField (fields : List (String × Raw)) (k : String) : Raw :=
  match fields.find? (fun p => p.fst == k) with
  | some p => p.snd
  | none => .undefv

/-- The result of decoding a raw record into the Reservation shape:
each field holds whatever value (possibly undefined) the record had
under the corresponding property. -/
structure RawReservation where
  id : Raw
  name : Raw
  phone : Raw
  date : Raw
  timeSlot : Raw
  status : Raw

/-- transformReservationRecord from the api utility module: a falsy
value, or a value that is not of object type, is rejected with null; an
object is mapped field by field into the Reservation shape, a missing
property reading as undefined. A property access on an object never
throws in JavaScript, so the try/catch around the mapping is dead code
and an object is never rejected, whatever fields it is missing. -/
def transformReservationRecord (record : Raw) : Option RawReservation :=
  if !record.truthy || !record.isObjectType then none
  else
    match record with
    | .objv fields =>
        some { id := getField fields "id", name := getField fields "name",
               phone := getField fields "phone",
               date := getField fields "date",
               timeSlot := getField fields "time_slot",
               status := getField fields "status" }
    | _ => none

/-- The insert branch of the realtime subscription in Dashboard.tsx
applied to the in-memory list: the callback dispatches only when
payload.new is truthy and of object type; handleNewReservation then
decodes the record, returns with the list unchanged on a null decode,
and otherwise deduplicates by strict id equality and prepends. -/
def realtimeInsertStep (payloadNew : Raw) (prev : List RawReservation) :
    List RawReservation :=
  if !(payloadNew.truthy && payloadNew.isObjectType) then prev
  else
    match transformReservationRecord payloadNew with
    | none => prev
    | some r =>
        if prev.any (fun x => jsStrictEq x.id r.id) then prev
        else r :: prev

/-- Counterexample to claim C5 as stated: the empty object is an object
missing the whole required Reservation shape, yet the decoder does not
drop it — it returns a record whose every field reads as undefined —
and the insert handler prepends that record, changing the in-memory
list. -/
theorem c5_counterexample :
    transformReservationRecord (Raw.objv []) =
      some { id := .undefv, name := .undefv, phone := .undefv, date := .undefv,
             timeSlot := .undefv, status := .undefv } ∧
    realtimeInsertStep (Raw.objv []) [] =
      [{ id := .undefv, name := .undefv, phone := .undefv, date := .undefv,
         timeSlot := .undefv, status := .undefv }] ∧
    realtimeInsertStep (Raw.objv []) [] ≠ [] := by
  refine ⟨rfl, rfl, fun h => List.cons_ne_nil _ _ h⟩

/-- Claim C5 amended: exactly the payloads that are falsy or not of
object type are dropped — for them the decoder returns null, the
in-memory list is unchanged and nothing is surfaced to the caller — an
object payload is never dropped: it is decoded even when the required
fields are missing, the missing fields reading as undefined. -/
theorem c5_amended_malformed_drop (p : Raw) (l : List RawReservation)
    (h : p.truthy = false ∨ p.isObjectType = false) :
    transformReservationRecord p = none ∧
    realtimeInsertStep p l = l ∧
    ∀ fields, (transformReservationRecord (Raw.objv fields)).isSome = true := by
  have ht : transformReservationRecord p = none := by
    unfold transformReservationRecord
    rcases h with h | h <;> simp [h]
  refine ⟨ht, ?_, fun fields => rfl⟩
  unfold realtimeInsertStep
  rcases h with h | h <;> simp [h]

/-- Concrete instantiation of the C5 amended theorem: a string payload
is dropped and the list stays unchanged. -/
theorem c5_amended_malformed_drop_witness :
    transformReservationRecord (Raw.strv "oops") = none ∧
    realtimeInsertStep (Raw.strv "oops") [] = [] :=
  ⟨(c5_amended_malformed_drop (Raw.strv "oops") [] (Or.inr rfl)).1,
    (c5_amended_malformed_drop (Raw.strv "oops") [] (Or.inr rfl)).2.1⟩

/-- The new or old row of a webhook invocation body, in wire field
names, with the manual-update marker column. -/
structure WebhookRecord where
  id : String
  name : String
  phone : String
  date : String
  time_slot : String
  status : String
  created_at : String
  manual_update : Option Bool
deriving DecidableEq

/-- The body of a webhook relay invocation: record, type, and the old
row when present. -/
structure WebhookBody where
  record : WebhookRecord
  type : String
  old : Option WebhookRecord
deriving DecidableEq

/-- The normalized payload the relay POSTs to the automation URL. -/
structure BookingData where
  id : String
  name : String
  phone : String
  date : String
  timeSlot : String
  status : String
  createdAt : String
  eventType : String
deriving DecidableEq

/-- Builds the normalized forwarded payload from the invocation body. -/
def bookingData (b : WebhookBody) : BookingData :=
  { id := b.record.id, name := b.record.name, phone := b.record.phone,
    date := b.record.date, timeSlot := b.record.time_slot,
    status := b.record.status, createdAt := b.record.created_at,
    eventType := b.type }

/-- Outcome of the forwarding POST: a response with its ok flag, HTTP
status and body text. -/
structure ForwardResp where
  ok : Bool
  statusCode : Nat
  text : String
deriving DecidableEq

/-- Backend outcomes for one relay invocation: the error returned by
the marker-clearing write if any, and the forwarding POST outcome — a
thrown fetch error or a response. -/
structure WebhookEnv where
  clearErr : Option String
  forward : Except String ForwardResp

/-- An outward operation issued by the relay. -/
inductive RelayOp where
  | clearMarker (id : String)
  | forwardPost (payload : BookingData)
deriving DecidableEq

/-- Whether a relay operation is the forwarding POST. -/
def RelayOp.isForward : RelayOp → Bool
  | .forwardPost _ => true
  | .clearMarker _ => false

/-- The HTTP response of the relay. -/
structure RelayResponse where
  statusCode : Nat
  success : Bool
  error : Option String
deriving DecidableEq

/-- The forwarding stage of the relay: a thrown fetch error or a non-ok
response becomes a 500 with success false and the error message (for a
non-ok response, the thrown message built from the response status and
text); an ok response yields 200 with success true. -/
def relayForward (env : WebhookEnv) : RelayResponse :=
  match env.forward with
  | .error e => { statusCode := 500, success := false, error := some e }
  | .ok r =>
      if r.ok then { statusCode := 200, success := true, error := none }
      else
        { statusCode := 500, success := false,
          error := some ("Webhook error: " ++ toString r.statusCode ++ " "
            ++ r.text) }

/-- The marker-aware webhook relay (the serverless variant handling
manual_update): on an UPDATE event with an old row present and
manual_update strictly true on the new row, it first writes the marker
back to null; a failed clearing write throws, which the catch turns
into a 500 response with success false — the forwarding POST never
happens and the stored marker stays set. Otherwise the normalized
payload is POSTed once to the configured URL. Returns the response, the
final stored marker value for the row (initially the value on the new
row), and the ordered list of operations issued. -/
def relayHandler (b : WebhookBody) (env : WebhookEnv) :
    RelayResponse × Option Bool × List RelayOp :=
  if b.type == "UPDATE" && b.old.isSome
      && (b.record.manual_update == some true) then
    match env.clearErr with
    | some e =>
        ({ statusCode := 500, success := false, error := some e },
          b.record.manual_update, [.clearMarker b.record.id])
    | none =>
        (relayForward env, none,
          [.clearMarker b.record.id, .forwardPost (bookingData b)])
  else
    (relayForward env, b.record.manual_update,
      [.forwardPost (bookingData b)])

/-- Claim C7: on an UPDATE invocation with an old row present and
manual_update strictly true on the new row, the relay first issues the
marker-clearing write; if that write fails the whole invocation fails
with a 500 and success false and the marker remains set, with no
forwarding POST; if it succeeds the marker is null and the forwarding
POST is issued once; a thrown forwarding error or a non-ok response
yields a 500 with success false and an error message, an ok response a
200 with success true; and the relay never issues more than one
forwarding POST. -/
theorem c7_relay_marker_oneshot (b : WebhookBody) (env : WebhookEnv)
    (ht : b.type = "UPDATE") (ho : b.old.isSome = true)
    (hm : b.record.manual_update = some true) :
    (relayHandler b env).snd.snd.head? =
      some (.clearMarker b.record.id) ∧
    (∀ e, env.clearErr = some e →
        relayHandler b env =
          ({ statusCode := 500, success := false, error := some e },
            some true, [.clearMarker b.record.id])) ∧
    (env.clearErr = none →
        (relayHandler b env).snd.fst = none ∧
        (relayHandler b env).snd.snd =
          [.clearMarker b.record.id, .forwardPost (bookingData b)]) ∧
    (env.clearErr = none → ∀ e, env.forward = .error e →
        (relayHandler b env).fst =
          { statusCode := 500, success := false, error := some e }) ∧
    (env.clearErr = none → ∀ r, env.forward = .ok r → r.ok = false →
        (relayHandler b env).fst.statusCode = 500 ∧
        (relayHandler b env).fst.success = false ∧
        (relayHandler b env).fst.error.isSome = true) ∧
    (env.clearErr = none → ∀ r, env.forward = .ok r → r.ok = true →
        (relayHandler b env).fst =
          { statusCode := 200, success := true, error := none }) ∧
    (relayHandler b env).snd.snd.countP RelayOp.isForward ≤ 1 := by
  have hcond : (b.type == "UPDATE" && b.old.isSome
      && (b.record.manual_update == some true)) = true := by
    simp [ht, ho, hm]
  have hne : b.old ≠ none := by
    cases hb : b.old
    · rw [hb] at ho; simp at ho
    · simp
  refine ⟨?_, ?_, ?_, ?_, ?_, ?_, ?_⟩
  · cases hc : env.clearErr <;> simp [relayHandler, hcond, hc]
  · intro e hc
    simp [relayHandler, hcond, hc, hm, ht, hne]
  · intro hc
    simp [relayHandler, hcond, hc]
  · intro hc e hf
    simp [relayHandler, hcond, hc, relayForward, hf]
  · intro hc r hf hok
    simp [relayHandler, hcond, hc, relayForward, hf, hok]
  · intro hc r hf hok
    simp [relayHandler, hcond, hc, relayForward, hf, hok]
  · cases hc : env.clearErr <;>
      simp [relayHandler, hcond, hc, List.countP, List.countP.go,
        RelayOp.isForward]

/-- Concrete instantiation of the C7 theorem: a manual Confirmed update
whose marker-clearing write fails. -/
theorem c7_relay_marker_oneshot_witness :
    relayHandler
        ⟨⟨"r1", "Alice", "612345678", "01/06/2025", "8h00-11h00",
          "Confirmed", "2025-06-01", some true⟩,
          "UPDATE",
          some ⟨"r1", "Alice", "612345678", "01/06/2025", "8h00-11h00",
            "Pending", "2025-06-01", none⟩⟩
        ⟨some "boom", .ok ⟨true, 200, "ok"⟩⟩ =
      ({ statusCode := 500, success := false, error := some "boom" },
        some true,
        [.clearMarker "r1"]) :=
  (c7_relay_marker_oneshot
    ⟨⟨"r1", "Alice", "612345678", "01/06/2025", "8h00-11h00",
      "Confirmed", "2025-06-01", some true⟩,
      "UPDATE",
      some ⟨"r1", "Alice", "612345678", "01/06/2025", "8h00-11h00",
        "Pending", "2025-06-01", none⟩⟩
    ⟨some "boom", .ok ⟨true, 200, "ok"⟩⟩
    rfl rfl rfl).2.1 "boom" rfl

end ReserveIt
